import Mathlib

/-!
Verification of the S3 size-tracking pipeline (cleaner, size-tracking and
logging lambdas) against its specification.

The embedding models the S3 bucket state as the list of pages that the
`list_objects_v2` API would return: a single un-paginated call sees only the
first page, while a paginator walks all pages.  Machine-level effects
(DynamoDB writes, CloudWatch log emission, metric publication) are made
explicit as returned values; a Python function that may raise is embedded as
a function into `Except`, and a `try/except` block that logs and continues
is embedded as a catch that turns the error into a logged value.
-/

namespace S3SizeTracker

/-- An S3 object as it appears in a `list_objects_v2` response: its `Key`
and `Size` entries. -/
structure S3Object where
  key : String
  size : Nat
deriving DecidableEq, Repr

/-- One page of a `list_objects_v2` listing. -/
abbrev Page := List S3Object

/-- The bucket state, as the sequence of pages a paginated listing returns.
An empty bucket is `[]` (or a single empty page). -/
abbrev BucketPages := List Page

/-- All objects of the bucket: what the paginator
(`get_paginator('list_objects_v2')`) enumerates, page by page. -/
def listAllObjects (pages : BucketPages) : List S3Object :=
  pages.flatten

/-! ## Cleaner lambda (`src/lambda/cleaner/cleaner_lambda.py`) -/

/-- The loop of `find_largest_object`: `largest_object = None`,
`largest_size = 0`, and for each listed object
`if obj['Size'] > largest_size` update both. -/
def findLargestLoop : List S3Object → Option S3Object → Nat → Option S3Object
  | [], best, _ => best
  | o :: rest, best, bestSize =>
    if bestSize < o.size then findLargestLoop rest (some o) o.size
    else findLargestLoop rest best bestSize

/-- `find_largest_object`: a single `s3.list_objects_v2(Bucket=...)` call,
so only the FIRST page of the listing is examined; `'Contents' not in
response` (empty listing) yields `None`, otherwise the scan loop runs with
`largest_size` initialised to `0` and a strict `>` comparison. -/
def find_largest_object (pages : BucketPages) : Option S3Object :=
  let contents := pages.headD []
  if contents.isEmpty then none
  else findLargestLoop contents none 0

/-- Result reported by the cleaner handler: either the deleted object's key
and size (statusCode 200, "Deleted object ..."), or the no-objects no-op
(statusCode 200, "No objects found ..."). -/
inductive CleanerResult where
  | deleted (key : String) (size : Nat)
  | noObjects
deriving DecidableEq, Repr

/-- Observable outcome of one cleaner invocation: the list of
`delete_object` calls issued, and the returned result. -/
structure CleanerOutcome where
  deleteCalls : List String
  result : CleanerResult
deriving DecidableEq, Repr

/-- The cleaner `handler`: find the largest object; if one was found,
delete it and report its key and size, otherwise delete nothing and report
the no-op. -/
def cleaner_handler (pages : BucketPages) : CleanerOutcome :=
  match find_largest_object pages with
  | some obj => { deleteCalls := [obj.key], result := .deleted obj.key obj.size }
  | none => { deleteCalls := [], result := .noObjects }

/-! ## Size-tracking lambda (`src/lambda/size_tracking/size_tracking_lambda.py`) -/

/-- A row of the S3ObjectSizeHistory DynamoDB table, as written by
`table.put_item` — the ledger's SizeRecord.  Timestamps are modelled as
naturals (milliseconds since the epoch). -/
structure SizeRecord where
  bucketName : String
  timestamp : Nat
  totalSize : Nat
  objectCount : Nat
deriving DecidableEq, Repr

/-- A transient infrastructure failure inside
`calculate_and_store_bucket_size`: the paginated listing or the DynamoDB
write raises. -/
inductive InfraError where
  | listingFailed
  | writeFailed
deriving DecidableEq, Repr

/-- An exception a handler can observe while processing one SQS record:
a JSON parse failure of the message body, an infrastructure failure, or a
failed CloudWatch metric publication. -/
inductive PyError where
  | jsonDecodeError
  | infra (e : InfraError)
  | metricPublishFailed
deriving DecidableEq, Repr

/-- One record of the inner S3 event (`s3_event['Records'][i]`): its
`eventSource`, `s3.bucket.name`, `eventName`, `s3.object.key` and the
optional `s3.object.size` field. -/
structure S3EventRecord where
  eventSource : String
  bucketName : String
  eventName : String
  objectKey : String
  objectSize : Option Nat
deriving DecidableEq, Repr

/-- One SQS record of the handler's `event['Records']`.  `malformed` is a
body on which one of the `json.loads` calls raises; `noS3Records` is a body
without `Message` or a message without `Records` (silently skipped by the
code); `s3Event recs` is a well-formed SNS-wrapped S3 event. -/
inductive SqsRecord where
  | malformed
  | noS3Records
  | s3Event (records : List S3EventRecord)
deriving DecidableEq, Repr

/-- The condition under which the size-tracking (and logging) handler
processes an S3 event record: `eventSource == 'aws:s3'` and the record's
bucket is the configured `BUCKET_NAME` (otherwise the record is skipped
with an info log). -/
def matchesTargetBucket (bn : String) (r : S3EventRecord) : Bool :=
  r.eventSource == "aws:s3" && r.bucketName == bn

/-- `calculate_and_store_bucket_size` (successful path): walk every page of
the paginated listing accumulating `total_size` and `object_count`, and put
one item with the current timestamp. -/
def calculate_and_store_bucket_size (bucket_name : String) (pages : BucketPages)
    (now : Nat) : SizeRecord :=
  { bucketName := bucket_name
    timestamp := now
    totalSize :=
      (pages.foldl (fun acc page =>
        page.foldl (fun a o => (a.1 + o.size, a.2 + 1)) acc) (0, 0)).1
    objectCount :=
      (pages.foldl (fun acc page =>
        page.foldl (fun a o => (a.1 + o.size, a.2 + 1)) acc) (0, 0)).2 }

/-- `calculate_and_store_bucket_size` with its failure mode: when the
invocation's infrastructure calls fail (`infraFailure = some e`), the
function logs and re-raises; otherwise it returns the stored record.  The
oracle is fixed for the whole invocation. -/
def calculate_and_store_bucket_sizeE (infraFailure : Option InfraError)
    (bucket_name : String) (pages : BucketPages) (now : Nat) :
    Except InfraError SizeRecord :=
  match infraFailure with
  | some e => .error e
  | none => .ok (calculate_and_store_bucket_size bucket_name pages now)

/-- The inner loop over `s3_event['Records']`: for each record matching the
target bucket, call `calculate_and_store_bucket_size`; a raised
infrastructure error aborts the loop (and loses nothing durable, since the
failing call stored nothing). -/
def processS3Records (infraFailure : Option InfraError) (bn : String)
    (pages : BucketPages) (now : Nat) :
    List S3EventRecord → List SizeRecord → Except InfraError (List SizeRecord)
  | [], acc => .ok acc
  | r :: rest, acc =>
    if matchesTargetBucket bn r then
      match calculate_and_store_bucket_sizeE infraFailure bn pages now with
      | .ok rec => processS3Records infraFailure bn pages now rest (acc ++ [rec])
      | .error e => .error e
    else
      processS3Records infraFailure bn pages now rest acc

/-- Processing of one SQS record inside the handler's `try` block: parse
the body and the SNS message, then run the inner loop; a parse failure
raises `jsonDecodeError`, an infrastructure failure is re-raised wrapped. -/
def processSizeTrackingRecord (infraFailure : Option InfraError) (bn : String)
    (pages : BucketPages) (now : Nat) : SqsRecord → Except PyError (List SizeRecord)
  | .malformed => .error .jsonDecodeError
  | .noS3Records => .ok []
  | .s3Event recs =>
    match processS3Records infraFailure bn pages now recs [] with
    | .ok appended => .ok appended
    | .error e => .error (.infra e)

/-- The handler's loop over `event['Records']`, with the code's
`except Exception as e: logger.error(...); continue`: every exception from
a record's processing is caught, logged (collected in the second
component), and the loop continues.  The result accumulates the ledger
appends and the caught errors. -/
def sizeTrackingLoop (infraFailure : Option InfraError) (bn : String)
    (pages : BucketPages) (now : Nat) :
    List SqsRecord → List SizeRecord × List PyError →
      Except PyError (List SizeRecord × List PyError)
  | [], acc => .ok acc
  | r :: rest, acc =>
    match processSizeTrackingRecord infraFailure bn pages now r with
    | .ok appended => sizeTrackingLoop infraFailure bn pages now rest (acc.1 ++ appended, acc.2)
    | .error e => sizeTrackingLoop infraFailure bn pages now rest (acc.1, acc.2 ++ [e])

/-- The size-tracking `handler`: process every SQS record of the batch.
Its type records that a Python handler may raise; an `.error` result would
mean an exception escaped the handler. -/
def size_tracking_handler (infraFailure : Option InfraError) (bn : String)
    (pages : BucketPages) (now : Nat) (records : List SqsRecord) :
    Except PyError (List SizeRecord × List PyError) :=
  sizeTrackingLoop infraFailure bn pages now records ([], [])

/-- The ledger rows appended by a handler invocation. -/
def ledgerOf (r : Except PyError (List SizeRecord × List PyError)) : List SizeRecord :=
  match r with
  | .ok (l, _) => l
  | .error _ => []

/-- Number of S3 event records in the batch that the code processes
(eventSource `aws:s3` and matching bucket). -/
def matchingCount (bn : String) : List SqsRecord → Nat
  | [] => 0
  | .s3Event recs :: rest => (recs.filter (matchesTargetBucket bn)).length + matchingCount bn rest
  | .malformed :: rest => matchingCount bn rest
  | .noS3Records :: rest => matchingCount bn rest

/-- Number of S3 event records in the batch whose bucket is the target
bucket (the claim's notion of a matching notification). -/
def bucketMatchCount (bn : String) : List SqsRecord → Nat
  | [] => 0
  | .s3Event recs :: rest =>
    (recs.filter (fun r => r.bucketName == bn)).length + bucketMatchCount bn rest
  | .malformed :: rest => bucketMatchCount bn rest
  | .noS3Records :: rest => bucketMatchCount bn rest

/-- Every S3 event record of the batch carries `eventSource = "aws:s3"`,
as S3 notifications delivered by the Event Bus do. -/
def allS3Sourced : List SqsRecord → Bool
  | [] => true
  | .s3Event recs :: rest => recs.all (fun r => r.eventSource == "aws:s3") && allS3Sourced rest
  | .malformed :: rest => allS3Sourced rest
  | .noS3Records :: rest => allS3Sourced rest

/-- The parse errors the handler catches and logs on a batch, when the
infrastructure is healthy. -/
def caughtParseErrors : List SqsRecord → List PyError
  | [] => []
  | .malformed :: rest => .jsonDecodeError :: caughtParseErrors rest
  | .noS3Records :: rest => caughtParseErrors rest
  | .s3Event _ :: rest => caughtParseErrors rest

/-- The errors the handler catches and logs on a batch when every
infrastructure call fails with `e`: one parse error per malformed record,
and one infrastructure error per SQS record containing at least one
matching S3 event record. -/
def caughtErrors (e : InfraError) (bn : String) : List SqsRecord → List PyError
  | [] => []
  | .malformed :: rest => .jsonDecodeError :: caughtErrors e bn rest
  | .noS3Records :: rest => caughtErrors e bn rest
  | .s3Event recs :: rest =>
    if recs.any (matchesTargetBucket bn) then .infra e :: caughtErrors e bn rest
    else caughtErrors e bn rest

/-! ## Logging lambda (`src/lambda/logging/logging_lambda.py`) -/

/-- A structured log line previously emitted by `log_size_change`, as
returned by `logs_client.filter_log_events`: its CloudWatch timestamp (ms)
and the parsed JSON fields `object_name` and `size_delta`.  The
`filter_log_events` API returns matching events in ascending timestamp
order, so a `List LogEvent` is always ordered oldest first. -/
structure LogEvent where
  timestamp : Nat
  object_name : String
  size_delta : Int
deriving DecidableEq, Repr

/-- An observable emission of the logging lambda: the structured
`{object_name, size_delta}` record (printed and logged), a published
CloudWatch metric data point, a caught-and-logged metric publication
failure, or the could-not-find-size warning. -/
inductive Emission where
  | logRecord (object_name : String) (size_delta : Int)
  | metric (value : Int)
  | metricError
  | warningNoSize (object_key : String)
deriving DecidableEq, Repr

/-- The 24-hour lookback window of `find_deleted_object_size`, in
milliseconds: `datetime.timedelta(days=1)`. -/
def lookbackMs : Nat := 86400000

/-- The server-side filtering of `filter_log_events`: only events at or
after `startTime = now - 24h` whose JSON `object_name` equals the filter
pattern's key are returned, in ascending timestamp order. -/
def searchWindow (log : List LogEvent) (now : Nat) (key : String) : List LogEvent :=
  log.filter (fun e => decide (now - lookbackMs ≤ e.timestamp) && e.object_name == key)

/-- The scan loop of `find_deleted_object_size`: walk the returned events
in order and return the first whose `object_name` matches and whose
`size_delta` is positive. -/
def priorCreatedLookup (log : List LogEvent) (now : Nat) (key : String) : Option LogEvent :=
  (searchWindow log now key).find? (fun e => e.object_name == key && decide (0 < e.size_delta))

/-- `find_deleted_object_size`: the recovered size (0 when nothing was
found) together with the warning emission of the not-found path. -/
def find_deleted_object_size (log : List LogEvent) (now : Nat) (object_key : String) :
    Int × List Emission :=
  match priorCreatedLookup log now object_key with
  | some e => (e.size_delta, [])
  | none => (0, [Emission.warningNoSize object_key])

/-- `cloudwatch.put_metric_data` on the TotalObjectSize metric: may raise
(the oracle `metricPublishFails` says whether it does during this
invocation). -/
def put_metric_data (metricPublishFails : Bool) (value : Int) : Except PyError Emission :=
  if metricPublishFails then .error .metricPublishFailed else .ok (Emission.metric value)

/-- `log_size_change`: print and log the structured record first, then —
only if `PUBLISH_METRICS` is enabled — attempt the metric publication
inside a `try` block whose `except` logs the error and swallows it. -/
def log_size_change (publishMetrics metricPublishFails : Bool)
    (object_name : String) (size_delta : Int) : Except PyError (List Emission) :=
  let logged := [Emission.logRecord object_name size_delta]
  if publishMetrics then
    match put_metric_data metricPublishFails size_delta with
    | .ok m => .ok (logged ++ [m])
    | .error _ => .ok (logged ++ [Emission.metricError])
  else
    .ok logged

/-- Python's `str.startswith`, used by `process_s3_event` on the event
name: a prefix test on the character sequence. -/
def pyStartsWith (s pre : String) : Bool :=
  pre.toList.isPrefixOf s.toList

/-- `process_s3_event`: on `ObjectCreated*`, the delta is the event's
`s3.object.size` defaulting to 0 (`.get('size', 0)`) and is logged; on
`ObjectRemoved*`, the prior size is recovered from the log history and the
negated delta is logged only when the recovered size is positive. -/
def process_s3_event (publishMetrics metricPublishFails : Bool) (log : List LogEvent)
    (now : Nat) (r : S3EventRecord) : Except PyError (List Emission) :=
  if pyStartsWith r.eventName "ObjectCreated" then
    log_size_change publishMetrics metricPublishFails r.objectKey
      ((r.objectSize.getD 0 : Nat) : Int)
  else if pyStartsWith r.eventName "ObjectRemoved" then
    let found := find_deleted_object_size log now r.objectKey
    if 0 < found.1 then
      match log_size_change publishMetrics metricPublishFails r.objectKey (-found.1) with
      | .ok ems => .ok (found.2 ++ ems)
      | .error err => .error err
    else
      .ok found.2
  else
    .ok []

/-! ## Threshold alarm (`src/cdk_s3_size_tracker/combined_stack.py`,
`TotalObjectSizeAlarm`) -/

/-- Modelled from the spec: the CloudWatch alarm evaluator itself runs in
the managed metrics service and is not part of src/; the repository only
declares the alarm (statistic Sum over 1-minute periods, threshold 20,
GREATER_THAN_THRESHOLD, evaluation_periods 1, alarm action = invoke the
cleaner lambda).  Two states, OK and ALARM. -/
inductive AlarmState where
  | OK
  | ALARM
deriving DecidableEq, Repr

/-- Modelled from the spec: the configured threshold of the declared
alarm, 20 bytes. -/
def alarmThreshold : Int := 20

/-- Modelled from the spec: one evaluation per fixed window — the state
becomes ALARM exactly when the windowed metric sum strictly exceeds the
threshold (GREATER_THAN_THRESHOLD), and OK otherwise. -/
def alarmStep (_s : AlarmState) (windowSum : Int) : AlarmState :=
  if alarmThreshold < windowSum then AlarmState.ALARM else AlarmState.OK

/-- Modelled from the spec: the alarm action is edge-triggered — the
Evictor is invoked exactly on OK → ALARM transitions, not on every window
spent in ALARM.  Counts the invocations over a run of the state machine on
a sequence of windowed sums. -/
def evictorInvocations : AlarmState → List Int → Nat
  | _, [] => 0
  | s, w :: ws =>
    (if s == AlarmState.OK && alarmStep s w == AlarmState.ALARM then 1 else 0)
      + evictorInvocations (alarmStep s w) ws

end S3SizeTracker

namespace S3SizeTracker

/-- Claim C1 (code bug, evaluation at the failing input): for the non-empty
listing `[("a", 0)]` in which every object has size 0, `find_largest_object`
returns `none` (the scan starts from `largest_size = 0` with a strict `>`),
so the handler issues no delete call and reports the "no objects" no-op —
although the listing is non-empty and the function's own docstring promises
`None` only for an empty bucket. -/
theorem evictor_all_zero_sizes_no_delete :
    cleaner_handler [[⟨"a", 0⟩]] =
      { deleteCalls := [], result := CleanerResult.noObjects } := by
  decide

/-- Claim C5 (code bug, evaluation at the failing input): on a bucket whose
listing spans two pages, page 1 = `[("a",1)]` and page 2 = `[("b",5)]`, the
cleaner deletes `"a"` of size 1 — it lists with a single `list_objects_v2`
call and never paginates — even though the full listing contains `"b"` of
size 5, so the deleted object is not maximal over the whole bucket. -/
theorem evictor_single_page_listing_misses_larger_object :
    cleaner_handler [[⟨"a", 1⟩], [⟨"b", 5⟩]] =
        { deleteCalls := ["a"], result := CleanerResult.deleted "a" 1 } ∧
      (⟨"b", 5⟩ : S3Object) ∈ listAllObjects [[⟨"a", 1⟩], [⟨"b", 5⟩]] ∧
      (1 : Nat) < 5 := by
  refine ⟨by decide, ?_, by decide⟩
  simp [listAllObjects]

/-! ### Helper lemmas about the size-tracking handler -/

lemma foldl_page_totals (page : Page) (a : Nat × Nat) :
    page.foldl (fun a o => (a.1 + o.size, a.2 + 1)) a
      = (a.1 + (page.map S3Object.size).sum, a.2 + page.length) := by
  induction page generalizing a with
  | nil => simp
  | cons o rest ih =>
    rw [List.foldl_cons, ih]
    simp only [List.map_cons, List.sum_cons, List.length_cons, Prod.mk.injEq]
    omega

lemma foldl_pages_totals (pages : BucketPages) (a : Nat × Nat) :
    pages.foldl (fun acc page =>
        page.foldl (fun a o => (a.1 + o.size, a.2 + 1)) acc) a
      = (a.1 + ((listAllObjects pages).map S3Object.size).sum,
         a.2 + (listAllObjects pages).length) := by
  induction pages generalizing a with
  | nil => simp [listAllObjects]
  | cons p rest ih =>
    rw [List.foldl_cons, foldl_page_totals, ih]
    simp only [listAllObjects, List.flatten_cons, List.map_append, List.sum_append,
      List.length_append, Prod.mk.injEq]
    omega

lemma calculate_and_store_totals (bn : String) (pages : BucketPages) (now : Nat) :
    calculate_and_store_bucket_size bn pages now
      = { bucketName := bn, timestamp := now,
          totalSize := ((listAllObjects pages).map S3Object.size).sum,
          objectCount := (listAllObjects pages).length } := by
  simp [calculate_and_store_bucket_size, foldl_pages_totals]

lemma processS3Records_ok (bn : String) (pages : BucketPages) (now : Nat)
    (recs : List S3EventRecord) (acc : List SizeRecord) :
    processS3Records none bn pages now recs acc
      = .ok (acc ++ List.replicate ((recs.filter (matchesTargetBucket bn)).length)
              (calculate_and_store_bucket_size bn pages now)) := by
  induction recs generalizing acc with
  | nil => simp [processS3Records]
  | cons r rest ih =>
    by_cases h : matchesTargetBucket bn r
    · simp [processS3Records, h, calculate_and_store_bucket_sizeE, ih,
        List.replicate_succ, List.filter_cons]
    · simp [processS3Records, h, ih, List.filter_cons]

lemma sizeTrackingLoop_ok (bn : String) (pages : BucketPages) (now : Nat)
    (rs : List SqsRecord) (acc : List SizeRecord × List PyError) :
    sizeTrackingLoop none bn pages now rs acc
      = .ok (acc.1 ++ List.replicate (matchingCount bn rs)
               (calculate_and_store_bucket_size bn pages now),
             acc.2 ++ caughtParseErrors rs) := by
  induction rs generalizing acc with
  | nil => simp [sizeTrackingLoop, matchingCount, caughtParseErrors]
  | cons r rest ih =>
    cases r with
    | malformed =>
      simp [sizeTrackingLoop, processSizeTrackingRecord, ih, matchingCount, caughtParseErrors]
    | noS3Records =>
      simp [sizeTrackingLoop, processSizeTrackingRecord, ih, matchingCount, caughtParseErrors]
    | s3Event recs =>
      simp only [sizeTrackingLoop, processSizeTrackingRecord, processS3Records_ok,
        List.nil_append, ih, matchingCount, caughtParseErrors, List.replicate_add,
        List.append_assoc]

lemma ledger_of_handler (bn : String) (pages : BucketPages) (now : Nat)
    (rs : List SqsRecord) :
    ledgerOf (size_tracking_handler none bn pages now rs)
      = List.replicate (matchingCount bn rs)
          (calculate_and_store_bucket_size bn pages now) := by
  simp [size_tracking_handler, sizeTrackingLoop_ok, ledgerOf]

lemma matchingCount_eq_bucketMatchCount (bn : String) (rs : List SqsRecord)
    (h : allS3Sourced rs = true) :
    matchingCount bn rs = bucketMatchCount bn rs := by
  induction rs with
  | nil => rfl
  | cons r rest ih =>
    cases r with
    | malformed =>
      simp only [allS3Sourced] at h
      simp [matchingCount, bucketMatchCount, ih h]
    | noS3Records =>
      simp only [allS3Sourced] at h
      simp [matchingCount, bucketMatchCount, ih h]
    | s3Event recs =>
      simp only [allS3Sourced, Bool.and_eq_true, List.all_eq_true] at h
      obtain ⟨h1, h2⟩ := h
      have hf : recs.filter (matchesTargetBucket bn)
          = recs.filter (fun r => r.bucketName == bn) := by
        apply List.filter_congr
        intro x hx
        simp [matchesTargetBucket, h1 x hx]
      simp [matchingCount, bucketMatchCount, ih h2, hf]

lemma processS3Records_failure (e : InfraError) (bn : String) (pages : BucketPages)
    (now : Nat) (recs : List S3EventRecord) (acc : List SizeRecord) :
    processS3Records (some e) bn pages now recs acc
      = if recs.any (matchesTargetBucket bn) then .error e else .ok acc := by
  induction recs generalizing acc with
  | nil => simp [processS3Records]
  | cons r rest ih =>
    by_cases h : matchesTargetBucket bn r
    · simp [processS3Records, h, calculate_and_store_bucket_sizeE]
    · simp [processS3Records, h, ih]

lemma sizeTrackingLoop_failure (e : InfraError) (bn : String) (pages : BucketPages)
    (now : Nat) (rs : List SqsRecord) (acc : List SizeRecord × List PyError) :
    sizeTrackingLoop (some e) bn pages now rs acc
      = .ok (acc.1, acc.2 ++ caughtErrors e bn rs) := by
  induction rs generalizing acc with
  | nil => simp [sizeTrackingLoop, caughtErrors]
  | cons r rest ih =>
    cases r with
    | malformed =>
      simp [sizeTrackingLoop, processSizeTrackingRecord, ih, caughtErrors]
    | noS3Records =>
      simp [sizeTrackingLoop, processSizeTrackingRecord, ih, caughtErrors]
    | s3Event recs =>
      by_cases h : recs.any (matchesTargetBucket bn)
      · simp [sizeTrackingLoop, processSizeTrackingRecord, processS3Records_failure, h,
          ih, caughtErrors]
      · simp [sizeTrackingLoop, processSizeTrackingRecord, processS3Records_failure, h,
          ih, caughtErrors]

/-! ### Claim theorems about the size-tracking handler -/

/-- Claim C2: for a batch of S3 notifications (every record carrying
`eventSource = "aws:s3"`), the size-tracking handler appends exactly one
SizeRecord per notification whose bucket matches the target bucket — not
one per batch — and each appended record ignores the notification's own
payload: its totalSize is the sum of the sizes of all objects of the
exhaustive paginated listing, its objectCount the number of listed
objects, and its timestamp the current time. -/
theorem sizeAggregator_one_recomputation_per_matching_notification
    (bn : String) (pages : BucketPages) (now : Nat) (rs : List SqsRecord)
    (hsrc : allS3Sourced rs = true) :
    ledgerOf (size_tracking_handler none bn pages now rs)
      = List.replicate (bucketMatchCount bn rs)
          { bucketName := bn, timestamp := now,
            totalSize := ((listAllObjects pages).map S3Object.size).sum,
            objectCount := (listAllObjects pages).length } := by
  rw [ledger_of_handler, matchingCount_eq_bucketMatchCount bn rs hsrc,
    calculate_and_store_totals]

/-- Witness for claim C2 at a concrete batch: one SQS record with one
matching S3 event record against a one-object bucket. -/
theorem sizeAggregator_one_recomputation_per_matching_notification_witness :
    allS3Sourced [SqsRecord.s3Event [⟨"aws:s3", "b", "ObjectCreated:Put", "k", some 3⟩]] = true ∧
    ledgerOf (size_tracking_handler none "b" [[⟨"k", 3⟩]] 7
        [SqsRecord.s3Event [⟨"aws:s3", "b", "ObjectCreated:Put", "k", some 3⟩]])
      = List.replicate (bucketMatchCount "b"
            [SqsRecord.s3Event [⟨"aws:s3", "b", "ObjectCreated:Put", "k", some 3⟩]])
          { bucketName := "b", timestamp := 7,
            totalSize := ((listAllObjects [[⟨"k", 3⟩]]).map S3Object.size).sum,
            objectCount := (listAllObjects [[⟨"k", 3⟩]]).length } :=
  ⟨by decide,
   sizeAggregator_one_recomputation_per_matching_notification "b" [[⟨"k", 3⟩]] 7
     [SqsRecord.s3Event [⟨"aws:s3", "b", "ObjectCreated:Put", "k", some 3⟩]] (by decide)⟩

/-- Claim C6: replaying a sequence of notifications containing duplicates
against a fixed bucket state is idempotent in the sense that every ledger
row produced from the duplicated sequence carries the same
(totalSize, objectCount) as every row produced from the de-duplicated
sequence — a duplicate adds an extra row with the same totals rather than
double-counting a delta. -/
theorem sizeAggregator_idempotent_under_duplicate_notifications
    (bn : String) (pages : BucketPages) (now : Nat) (rs : List SqsRecord)
    (rec : SizeRecord)
    (h1 : rec ∈ ledgerOf (size_tracking_handler none bn pages now rs))
    (rec' : SizeRecord)
    (h2 : rec' ∈ ledgerOf (size_tracking_handler none bn pages now rs.dedup)) :
    rec.totalSize = rec'.totalSize ∧ rec.objectCount = rec'.objectCount := by
  rw [ledger_of_handler] at h1 h2
  rw [List.eq_of_mem_replicate h1, List.eq_of_mem_replicate h2]
  exact ⟨rfl, rfl⟩

/-- Witness for claim C6: a batch holding the same notification twice,
whose ledger rows (two of them) all carry the totals of the single
processing of the de-duplicated batch. -/
theorem sizeAggregator_idempotent_under_duplicate_notifications_witness :
    (⟨"b", 7, 3, 1⟩ : SizeRecord) ∈ ledgerOf (size_tracking_handler none "b" [[⟨"k", 3⟩]] 7
        [SqsRecord.s3Event [⟨"aws:s3", "b", "ObjectCreated:Put", "k", some 3⟩],
         SqsRecord.s3Event [⟨"aws:s3", "b", "ObjectCreated:Put", "k", some 3⟩]]) ∧
    (⟨"b", 7, 3, 1⟩ : SizeRecord) ∈ ledgerOf (size_tracking_handler none "b" [[⟨"k", 3⟩]] 7
        [SqsRecord.s3Event [⟨"aws:s3", "b", "ObjectCreated:Put", "k", some 3⟩],
         SqsRecord.s3Event [⟨"aws:s3", "b", "ObjectCreated:Put", "k", some 3⟩]].dedup) ∧
    (⟨"b", 7, 3, 1⟩ : SizeRecord).totalSize = (⟨"b", 7, 3, 1⟩ : SizeRecord).totalSize ∧
    (⟨"b", 7, 3, 1⟩ : SizeRecord).objectCount = (⟨"b", 7, 3, 1⟩ : SizeRecord).objectCount :=
  ⟨by decide, by decide,
   sizeAggregator_idempotent_under_duplicate_notifications "b" [[⟨"k", 3⟩]] 7
     [SqsRecord.s3Event [⟨"aws:s3", "b", "ObjectCreated:Put", "k", some 3⟩],
      SqsRecord.s3Event [⟨"aws:s3", "b", "ObjectCreated:Put", "k", some 3⟩]]
     ⟨"b", 7, 3, 1⟩ (by decide) ⟨"b", 7, 3, 1⟩ (by decide)⟩

/-- Claim C4, counterexample: a batch with one notification matching the
target bucket, processed while the bucket listing fails, does NOT fail the
handler invocation — the handler catches the exception, logs it, and
returns normally (`.ok`), so the message is acknowledged. -/
theorem sizeAggregator_failure_swallowed_counterexample :
    matchingCount "b" [SqsRecord.s3Event [⟨"aws:s3", "b", "ObjectCreated:Put", "k", some 3⟩]] = 1 ∧
    size_tracking_handler (some InfraError.listingFailed) "b" [[⟨"k", 3⟩]] 0
        [SqsRecord.s3Event [⟨"aws:s3", "b", "ObjectCreated:Put", "k", some 3⟩]]
      = .ok ([], [PyError.infra InfraError.listingFailed]) := by
  exact ⟨by decide, rfl⟩

/-- Claim C4, amended: when the bucket listing or the ledger write fails,
the per-record `except` block catches the exception and logs it, the loop
continues with the next record, and the handler returns normally — nothing
propagates, so the platform sees a successful invocation. -/
theorem sizeAggregator_failure_caught_not_propagated
    (e : InfraError) (bn : String) (pages : BucketPages) (now : Nat)
    (rs : List SqsRecord) :
    size_tracking_handler (some e) bn pages now rs
      = .ok ([], caughtErrors e bn rs) := by
  simp [size_tracking_handler, sizeTrackingLoop_failure]

/-! ### Claim theorems about the logging lambda -/

/-- Claim C8: for every invocation of `log_size_change`, the structured
`{object_name, size_delta}` record is emitted first — before any metric
publication is attempted — and the function returns normally (`.ok`)
whether metrics are disabled, the publication succeeds, or the publication
fails (in which case the failure is logged, never propagated). -/
theorem changeLogger_log_first_metric_failure_not_propagated
    (pm mf : Bool) (object_name : String) (size_delta : Int) :
    log_size_change pm mf object_name size_delta
      = .ok (Emission.logRecord object_name size_delta ::
          (if pm then
            (if mf then [Emission.metricError] else [Emission.metric size_delta])
          else [])) := by
  cases pm <;> cases mf <;> rfl

/-- Claim C10: a Created notification for the target bucket whose payload
lacks the size field is processed without raising: the structured record
is emitted with `size_delta = 0`, and when metric publication is enabled a
metric point of value 0 is published (or its failure caught). -/
theorem changeLogger_missing_size_field_treated_as_zero
    (pm mf : Bool) (log : List LogEvent) (now : Nat) (r : S3EventRecord)
    (hc : pyStartsWith r.eventName "ObjectCreated" = true)
    (hs : r.objectSize = none) :
    process_s3_event pm mf log now r
      = .ok (Emission.logRecord r.objectKey 0 ::
          (if pm then
            (if mf then [Emission.metricError] else [Emission.metric 0])
          else [])) := by
  have h0 : process_s3_event pm mf log now r
      = log_size_change pm mf r.objectKey ((r.objectSize.getD 0 : Nat) : Int) := by
    simp [process_s3_event, hc]
  rw [h0, hs]
  cases pm <;> cases mf <;> rfl

/-- Witness for claim C10 at a concrete Created event without a size
field, with metrics enabled and the publication succeeding. -/
theorem changeLogger_missing_size_field_treated_as_zero_witness :
    (pyStartsWith "ObjectCreated:Put" "ObjectCreated" = true) ∧
    ((none : Option Nat) = none) ∧
    process_s3_event true false [] 0 ⟨"aws:s3", "b", "ObjectCreated:Put", "k", none⟩
      = .ok (Emission.logRecord "k" 0 ::
          (if true then
            (if false then [Emission.metricError] else [Emission.metric 0])
          else [])) :=
  ⟨by decide, rfl,
   changeLogger_missing_size_field_treated_as_zero true false [] 0
     ⟨"aws:s3", "b", "ObjectCreated:Put", "k", none⟩ (by decide) rfl⟩

/-- Claim C3, counterexample: a Removed event whose key has no prior
Created log entry is processed without raising and with a warning, but NO
structured record with `size_delta = 0` is emitted — the code only calls
`log_size_change` when the recovered size is positive, so the claimed
zero-delta record does not exist. -/
theorem changeLogger_removed_no_prior_entry_counterexample :
    process_s3_event true false [] 0 ⟨"aws:s3", "b", "ObjectRemoved:Delete", "k", none⟩
        = .ok [Emission.warningNoSize "k"] ∧
    Emission.logRecord "k" 0 ∉ [Emission.warningNoSize "k"] := by
  exact ⟨rfl, by decide⟩

/-- Claim C3, amended: for every Removed notification whose objectKey has
no prior Created log entry with positive delta within the lookback window,
the Change Logger logs a warning and raises no exception, and emits no
structured size-change record at all (rather than one with
`size_delta = 0`). -/
theorem changeLogger_removed_no_prior_entry_warns_without_emission
    (pm mf : Bool) (log : List LogEvent) (now : Nat) (r : S3EventRecord)
    (hnc : pyStartsWith r.eventName "ObjectCreated" = false)
    (hr : pyStartsWith r.eventName "ObjectRemoved" = true)
    (hnone : priorCreatedLookup log now r.objectKey = none) :
    process_s3_event pm mf log now r = .ok [Emission.warningNoSize r.objectKey] := by
  simp [process_s3_event, hnc, hr, find_deleted_object_size, hnone]

/-- Witness for the amended claim C3 at a concrete Removed event against
an empty log history. -/
theorem changeLogger_removed_no_prior_entry_warns_without_emission_witness :
    (pyStartsWith "ObjectRemoved:Delete" "ObjectCreated" = false) ∧
    (pyStartsWith "ObjectRemoved:Delete" "ObjectRemoved" = true) ∧
    (priorCreatedLookup [] 0 "k" = none) ∧
    process_s3_event true false [] 0 ⟨"aws:s3", "b", "ObjectRemoved:Delete", "k", none⟩
      = .ok [Emission.warningNoSize "k"] :=
  ⟨by decide, by decide, rfl,
   changeLogger_removed_no_prior_entry_warns_without_emission true false [] 0
     ⟨"aws:s3", "b", "ObjectRemoved:Delete", "k", none⟩ (by decide) (by decide) rfl⟩

/-- Claim C7 (code bug, evaluation at the failing input): with two prior
Created entries for key "k" in the lookback window — delta 5 at timestamp
1 and delta 7 at timestamp 2 (events arrive in ascending timestamp order)
— the lookup returns 5, the delta of the OLDEST matching entry, and the
emitted delta is −5; the claim (and the code's own comment) require the
most recent entry, i.e. 7 and −7. -/
theorem changeLogger_lookup_returns_oldest_matching_entry :
    (find_deleted_object_size [⟨1, "k", 5⟩, ⟨2, "k", 7⟩] 10 "k").1 = 5 ∧
    process_s3_event false false [⟨1, "k", 5⟩, ⟨2, "k", 7⟩] 10
        ⟨"aws:s3", "b", "ObjectRemoved:Delete", "k", none⟩
      = .ok [Emission.logRecord "k" (-5)] := by
  exact ⟨rfl, rfl⟩

/-! ### Claim theorem about the threshold alarm -/

lemma evictorInvocations_stays_alarm (ws : List Int)
    (habove : ∀ w ∈ ws, alarmThreshold < w) :
    evictorInvocations AlarmState.ALARM ws = 0 := by
  induction ws with
  | nil => rfl
  | cons v vs ih =>
    have hv : alarmThreshold < v := habove v (by simp)
    have hstep : alarmStep AlarmState.ALARM v = AlarmState.ALARM := by
      simp [alarmStep, hv]
    simp [evictorInvocations, hstep, ih (fun x hx => habove x (by simp [hx]))]

/-- Claim C9: starting from OK, a metric sequence that stays strictly
above the threshold for K ≥ 1 consecutive evaluation windows causes
exactly one Evictor invocation — on the OK → ALARM transition of the first
window — not K invocations. -/
theorem thresholdAlarm_edge_triggered_single_invocation
    (ws : List Int) (hne : ws ≠ [])
    (habove : ∀ w ∈ ws, alarmThreshold < w) :
    evictorInvocations AlarmState.OK ws = 1 := by
  cases ws with
  | nil => exact absurd rfl hne
  | cons w rest =>
    have hw : alarmThreshold < w := habove w (by simp)
    have hstep : alarmStep AlarmState.OK w = AlarmState.ALARM := by
      simp [alarmStep, hw]
    simp [evictorInvocations, hstep,
      evictorInvocations_stays_alarm rest (fun x hx => habove x (by simp [hx]))]

/-- Witness for claim C9: three consecutive windows above the threshold
yield exactly one invocation. -/
theorem thresholdAlarm_edge_triggered_single_invocation_witness :
    (([21, 25, 30] : List Int) ≠ []) ∧
    (∀ w ∈ ([21, 25, 30] : List Int), alarmThreshold < w) ∧
    evictorInvocations AlarmState.OK [21, 25, 30] = 1 :=
  ⟨by decide, by decide,
   thresholdAlarm_edge_triggered_single_invocation [21, 25, 30] (by decide) (by decide)⟩

end S3SizeTracker
